import Mathlib

/-!
Shallow embedding of the client connection module (src/client/conn.rs) of the
hyper HTTP client, futures-0.1 era.

The polling model of futures 0.1 is embedded as pure data: `Async` mirrors
`futures::Async`, and `Poll a e` mirrors `futures::Poll<a, e> =
Result<Async<a>, e>`.  A Rust `panic!`/`expect` abort is made explicit by the
`PResult` wrapper: `PResult.panic msg` is the aborted computation, `PResult.ok`
the normal one.  Stateful `fn poll(&mut self)` methods become functions from
the state to a `PResult` of (poll result, updated state).

External collaborators that live outside this module (the dispatch channel in
`super::dispatch`, the `proto` HTTP/1.1 and HTTP/2 drivers, the `http` request
and response types) are modelled from the specification, each with a doc
comment saying so.  Everything else is translated directly from the source.
-/

deriving instance DecidableEq for Except

namespace HyperConn

/-- `futures::Async`: a poll either yields a value or is not ready yet. -/
inductive Async (α : Type) : Type
  | ready (a : α)
  | notReady
deriving DecidableEq, Repr

/-- `futures::Poll<a, e> = Result<Async<a>, e>`. -/
abbrev Poll (α ε : Type) : Type := Except ε (Async α)

/-- Result of running a Rust computation that may `panic!` / `expect`:
either the panic message or the normal value. -/
inductive PResult (α : Type) : Type
  | panic (msg : String)
  | ok (a : α)
deriving DecidableEq, Repr

/-- Map the value of an `Async` (the `Async::map` used by `Handshake::poll`). -/
def Async.map {α β : Type} (f : α → β) : Async α → Async β
  | .ready a => .ready (f a)
  | .notReady => .notReady

/-- Modelled from the spec: the crate error type, reduced to the two facts the
spec talks about — whether the error is a cancellation, and its message. -/
structure HError : Type where
  canceled : Bool
  message : Option String
deriving DecidableEq, Repr

/-- `::Error::new_canceled(msg)`: a cancellation error with an optional message. -/
def Error.new_canceled (msg : Option String) : HError :=
  { canceled := true, message := msg }

/-- Modelled from the spec: a stand-in for `http::Request<B>` — an opaque head
plus the body.  The claims treat requests opaquely; what matters is identity. -/
structure Request (B : Type) : Type where
  head : String
  body : B
deriving DecidableEq, Repr

/-- Modelled from the spec: a stand-in for `http::Response<Body>`, treated
opaquely by every claim. -/
structure Response : Type where
  status : Nat
deriving DecidableEq, Repr

/-- The state of the bounded dispatch-channel sender.

Modelled from the spec: the bounded variant has capacity exactly one
outstanding, un-taken response slot; a send is accepted only when the slot is
free and the channel is open. -/
inductive SenderState : Type
  | ready
  | full
  | closed
deriving DecidableEq, Repr

/-- Modelled from the spec: `dispatch::Sender<Request<B>, Response<Body>>`,
the bounded single-slot sender half of the dispatch channel. -/
structure DispatchSender (B : Type) : Type where
  state : SenderState
deriving DecidableEq, Repr

/-- The token an accepted send hands back: the receiver of the one-shot
response slot.  Its eventual outcome is supplied at poll time as a
`SlotState`, so the token itself carries no data. -/
structure Receiver : Type
deriving DecidableEq, Repr

/-- Modelled from the spec: `send(request)` is a synchronous enqueue attempt;
it fails immediately, returning the request back to the caller, if there is no
capacity or the channel is closed — it never blocks. -/
def DispatchSender.send {B : Type} (s : DispatchSender B) (req : Request B) :
    Except (Request B) Receiver :=
  match s.state with
  | .ready => .ok ⟨⟩
  | .full => .error req
  | .closed => .error req

/-- Modelled from the spec: `try_send` follows the same one-contract enqueue
attempt as `send` (spec section 4.3 gives a single contract for both). -/
def DispatchSender.try_send {B : Type} (s : DispatchSender B) (req : Request B) :
    Except (Request B) Receiver :=
  DispatchSender.send s req

/-- Modelled from the spec: `poll_ready` reports Pending, Ready(Ok) or
Ready(Err); the error case is channel teardown, a cancellation. -/
def DispatchSender.poll_ready {B : Type} (s : DispatchSender B) : Poll Unit HError :=
  match s.state with
  | .ready => .ok (.ready ())
  | .full => .ok .notReady
  | .closed => .error (Error.new_canceled none)

/-- Modelled from the spec: whether a subsequent send is expected to succeed. -/
def DispatchSender.is_ready {B : Type} (s : DispatchSender B) : Bool :=
  s.state = SenderState.ready

/-- Modelled from the spec: whether the channel is closed. -/
def DispatchSender.is_closed {B : Type} (s : DispatchSender B) : Bool :=
  s.state = SenderState.closed

/-- Modelled from the spec: `dispatch::UnboundedSender`, the cloneable
unbounded sender; no capacity limit, so an enqueue fails only when closed. -/
structure UnboundedSender (B : Type) : Type where
  closed : Bool
deriving DecidableEq, Repr

/-- Modelled from the spec: unbounded enqueue attempt — fails, handing the
request back, only when the channel is closed. -/
def UnboundedSender.try_send {B : Type} (s : UnboundedSender B) (req : Request B) :
    Except (Request B) Receiver :=
  if s.closed then .error req else .ok ⟨⟩

/-- The receiver half handed by `dispatch::channel()` to the driver. -/
structure ChanReceiver : Type
deriving DecidableEq, Repr

/-- Modelled from the spec: `dispatch::channel()` creates a fresh bounded
channel; its slot starts free, so the sender starts ready. -/
def dispatch.channel (B : Type) : DispatchSender B × ChanReceiver :=
  (⟨SenderState.ready⟩, ⟨⟩)

/-- `SendRequest<B>`: the sender side of an established connection, wrapping
the bounded dispatch sender. -/
structure SendRequest (B : Type) : Type where
  dispatch : DispatchSender B
deriving DecidableEq, Repr

/-- `SendRequest::poll_ready`: delegates to the dispatch sender. -/
def SendRequest.poll_ready {B : Type} (s : SendRequest B) : Poll Unit HError :=
  s.dispatch.poll_ready

/-- `SendRequest::is_ready`: delegates to the dispatch sender. -/
def SendRequest.is_ready {B : Type} (s : SendRequest B) : Bool :=
  s.dispatch.is_ready

/-- `SendRequest::is_closed`: delegates to the dispatch sender. -/
def SendRequest.is_closed {B : Type} (s : SendRequest B) : Bool :=
  s.dispatch.is_closed

/-- `Http2SendRequest<B>`: the cloneable sender wrapping the unbounded
dispatch sender. -/
structure Http2SendRequest (B : Type) : Type where
  dispatch : UnboundedSender B
deriving DecidableEq, Repr

/-- The generic two-sided sum, mirroring `futures::future::Either` with its
`A` and `B` constructors. -/
inductive Either (α β : Type) : Type
  | A (a : α)
  | B (b : β)
deriving DecidableEq, Repr

/-- `ResponseFuture`: the future returned by `SendRequest::send_request`.
Its boxed inner future is, as built by the source, either
`Either::A(rx.then(..))` — pending on the dispatch channel — or
`Either::B(future::err(e))` — already failed before submission. -/
structure ResponseFuture : Type where
  inner : Either Receiver HError
deriving DecidableEq, Repr

/-- The eventual outcome of the one-shot response slot behind an accepted
send, as seen by the receiver: still pending, delivered (a response or an
error of type `E`), or dropped by the driver side without a delivery.

Modelled from the spec: delivery into the slot is performed by the external
driver; polling code in this module only consumes the outcome. -/
inductive SlotState (E : Type) : Type
  | pending
  | delivered (r : Except E Response)
  | dropped
deriving DecidableEq, Repr

/-- `SendRequest::send_request`: attempt the enqueue; on success the future
is pending on the returned receiver, on failure (request handed back and
discarded — the binder is `_req` in the source) the future is already failed
with a cancellation error saying the connection was not ready. -/
def SendRequest.send_request {B : Type} (s : SendRequest B) (req : Request B) :
    ResponseFuture :=
  match s.dispatch.send req with
  | .ok rx => ⟨Either.A rx⟩
  | .error _req => ⟨Either.B (Error.new_canceled (some "connection was not ready"))⟩

/-- Polling a `ResponseFuture` given the current outcome of its slot.  This
embeds the closure passed to `rx.then` in `send_request`:
`Ok(Ok(res))` yields the response, `Ok(Err(err))` propagates the error, and
`Err(_)` — the driver dropped the slot without responding — is the
`panic!("dispatch dropped without returning error")` branch.  An already
failed future yields its precomputed error at once, whatever the slot. -/
def responseFuturePoll (f : ResponseFuture) (slot : SlotState HError) :
    PResult (Poll Response HError) :=
  match f.inner with
  | .B e => .ok (.error e)
  | .A _rx =>
    match slot with
    | .pending => .ok (.ok .notReady)
    | .delivered (.ok r) => .ok (.ok (.ready r))
    | .delivered (.error e) => .ok (.error e)
    | .dropped => .panic "dispatch dropped without returning error"

/-- The boxed future returned by the `send_request_retryable` methods: either
pending on the dispatch channel, or already failed with the pair of the
cancellation error and the original request handed back for retry. -/
structure RetryFuture (B : Type) : Type where
  inner : Either Receiver (HError × Option (Request B))
deriving DecidableEq, Repr

/-- `SendRequest::send_request_retryable`: like `send_request` but uses
`try_send` and, on enqueue failure, fails with
`(cancellation error, Some(original request))`. -/
def SendRequest.send_request_retryable {B : Type} (s : SendRequest B)
    (req : Request B) : RetryFuture B :=
  match s.dispatch.try_send req with
  | .ok rx => ⟨Either.A rx⟩
  | .error req =>
    ⟨Either.B (Error.new_canceled (some "connection was not ready"), some req)⟩

/-- `Http2SendRequest::send_request_retryable`: identical shape over the
unbounded sender. -/
def Http2SendRequest.send_request_retryable {B : Type} (s : Http2SendRequest B)
    (req : Request B) : RetryFuture B :=
  match s.dispatch.try_send req with
  | .ok rx => ⟨Either.A rx⟩
  | .error req =>
    ⟨Either.B (Error.new_canceled (some "connection was not ready"), some req)⟩

/-- Polling the retryable future given its slot outcome: the same `then`
closure as `responseFuturePoll`, with the retry error pair as error type. -/
def retryFuturePoll {B : Type} (f : RetryFuture B)
    (slot : SlotState (HError × Option (Request B))) :
    PResult (Poll Response (HError × Option (Request B))) :=
  match f.inner with
  | .B e => .ok (.error e)
  | .A _rx =>
    match slot with
    | .pending => .ok (.ok .notReady)
    | .delivered (.ok r) => .ok (.ok (.ready r))
    | .delivered (.error e) => .ok (.error e)
    | .dropped => .panic "dispatch dropped without returning error"

/-- The executor configured on a builder: `common::Exec`, either the default
or a caller-supplied one (identified abstractly). -/
inductive Exec : Type
  | Default
  | Executor (id : Nat)
deriving DecidableEq, Repr

/-- `Builder`: the connection configuration record. -/
structure Builder : Type where
  exec : Exec
  h1_writev : Bool
  h1_title_case_headers : Bool
  http2 : Bool
deriving DecidableEq, Repr

/-- `Builder::new()`: default configuration. -/
def Builder.new : Builder :=
  { exec := Exec.Default
  , h1_writev := true
  , h1_title_case_headers := false
  , http2 := false }

/-- Modelled from the spec: the external `proto::Conn` HTTP/1.1 framer over a
transport, tracking the transport, the read-ahead buffer of bytes read but
not consumed as HTTP, and which policies the handshake applied to it. -/
structure ProtoConn (T : Type) : Type where
  transport : T
  readBuf : List Nat
  writeStrategyFlatten : Bool
  titleCaseHeaders : Bool
deriving DecidableEq, Repr

/-- Modelled from the spec: `proto::Conn::new(io)` — fresh framer, empty read
buffer, default (batching) write strategy, no title-casing. -/
def ProtoConn.new {T : Type} (t : T) : ProtoConn T :=
  { transport := t, readBuf := [], writeStrategyFlatten := false
  , titleCaseHeaders := false }

/-- Modelled from the spec: switch the write strategy to flatten
(write-batching disabled). -/
def ProtoConn.set_write_strategy_flatten {T : Type} (c : ProtoConn T) : ProtoConn T :=
  { c with writeStrategyFlatten := true }

/-- Modelled from the spec: enable title-case headers. -/
def ProtoConn.set_title_case_headers {T : Type} (c : ProtoConn T) : ProtoConn T :=
  { c with titleCaseHeaders := true }

/-- `proto::h1::dispatch::Client::new(rx)`: the dispatch-side client holding
the channel receiver. -/
structure ClientDispatch (B : Type) : Type where
  rx : ChanReceiver
deriving DecidableEq, Repr

/-- `proto::h1::dispatch::Client::new(rx)`. -/
def ClientDispatch.new (B : Type) (rx : ChanReceiver) : ClientDispatch B :=
  ⟨rx⟩

/-- Modelled from the spec: the external HTTP/1.1 driver
`proto::h1::Dispatcher`, holding the dispatch client and the framer.  Its
driving behaviour is external; successive outcomes of its two poll entry
points are scripts consumed one per call, NotReady once exhausted. -/
structure Dispatcher (B T : Type) : Type where
  cd : ClientDispatch B
  conn : ProtoConn T
  pollScript : List (Poll Unit HError)
  pollWithoutShutdownScript : List (Poll Unit HError)
deriving DecidableEq, Repr

/-- `proto::h1::Dispatcher::new(cd, conn)`. -/
def Dispatcher.new {B T : Type} (cd : ClientDispatch B) (conn : ProtoConn T) :
    Dispatcher B T :=
  { cd := cd, conn := conn, pollScript := [], pollWithoutShutdownScript := [] }

/-- Modelled from the spec: one driving step of the external HTTP/1.1
dispatcher (the shutdown-performing poll). -/
def Dispatcher.poll {B T : Type} (d : Dispatcher B T) :
    Poll Unit HError × Dispatcher B T :=
  match d.pollScript with
  | [] => (.ok .notReady, d)
  | r :: rest => (r, { d with pollScript := rest })

/-- Modelled from the spec: one driving step of the external HTTP/1.1
dispatcher without transport shutdown on completion. -/
def Dispatcher.poll_without_shutdown {B T : Type} (d : Dispatcher B T) :
    Poll Unit HError × Dispatcher B T :=
  match d.pollWithoutShutdownScript with
  | [] => (.ok .notReady, d)
  | r :: rest => (r, { d with pollWithoutShutdownScript := rest })

/-- Modelled from the spec: `Dispatcher::into_inner()` decomposes the
HTTP/1.1 driver into the transport, the bytes read but not consumed as HTTP,
and the dispatch side. -/
def Dispatcher.into_inner {B T : Type} (d : Dispatcher B T) :
    T × List Nat × ClientDispatch B :=
  (d.conn.transport, d.conn.readBuf, d.cd)

/-- Modelled from the spec: the external HTTP/2 driver `proto::h2::Client`,
built over the transport, the channel receiver and the executor; its driving
behaviour is a script of poll outcomes, NotReady once exhausted. -/
structure H2Client (T B : Type) : Type where
  transport : T
  rx : ChanReceiver
  exec : Exec
  pollScript : List (Poll Unit HError)
deriving DecidableEq, Repr

/-- `proto::h2::Client::new(io, rx, exec)`. -/
def H2Client.new {T B : Type} (t : T) (rx : ChanReceiver) (exec : Exec) :
    H2Client T B :=
  { transport := t, rx := rx, exec := exec, pollScript := [] }

/-- Modelled from the spec: one driving step of the external HTTP/2 driver. -/
def H2Client.poll {T B : Type} (h : H2Client T B) :
    Poll Unit HError × H2Client T B :=
  match h.pollScript with
  | [] => (.ok .notReady, h)
  | r :: rest => (r, { h with pollScript := rest })

/-- `Connection<T, B>`: the driver future, an `Either` of the HTTP/1.1
dispatcher and the HTTP/2 client. -/
structure Connection (T B : Type) : Type where
  inner : Either (Dispatcher B T) (H2Client T B)
deriving DecidableEq, Repr

/-- `Parts<T>`: the deconstructed pieces of a connection. -/
structure Parts (T : Type) : Type where
  transport : T
  read_buf : List Nat
deriving DecidableEq, Repr

/-- `Connection::into_parts`: decompose the HTTP/1.1 driver via
`into_inner`; on the HTTP/2 variant this is the
`panic!("http2 cannot into_inner")` branch. -/
def Connection.into_parts {T B : Type} (c : Connection T B) :
    PResult (Parts T) :=
  match c.inner with
  | .A h1 =>
    match h1.into_inner with
    | (t, read_buf, _) => .ok { transport := t, read_buf := read_buf }
  | .B _h2 => .panic "http2 cannot into_inner"

/-- `Connection::poll_without_shutdown`: the HTTP/1.1 side uses the
non-shutdown poll; the HTTP/2 side just polls the HTTP/2 driver. -/
def Connection.poll_without_shutdown {T B : Type} (c : Connection T B) :
    Poll Unit HError × Connection T B :=
  match c.inner with
  | .A h1 =>
    match h1.poll_without_shutdown with
    | (r, h1x) => (r, ⟨Either.A h1x⟩)
  | .B h2 =>
    match h2.poll with
    | (r, h2x) => (r, ⟨Either.B h2x⟩)

/-- `<Connection as Future>::poll`: delegates to `self.inner.poll()`, which
polls whichever side the `Either` holds (shutdown-performing for HTTP/1.1). -/
def Connection.poll {T B : Type} (c : Connection T B) :
    Poll Unit HError × Connection T B :=
  match c.inner with
  | .A h1 =>
    match h1.poll with
    | (r, h1x) => (r, ⟨Either.A h1x⟩)
  | .B h2 =>
    match h2.poll with
    | (r, h2x) => (r, ⟨Either.B h2x⟩)

/-- `HandshakeInner<T, B, R>`: the builder copy plus the transport, taken on
the single poll.  The transaction marker `R` is a phantom type in the source
and is dropped here. -/
structure HandshakeInner (T B : Type) : Type where
  builder : Builder
  transport : Option T
deriving DecidableEq, Repr

/-- `HandshakeInner::poll`: take the transport
(`expect("polled more than once")` — a second poll panics), build a fresh
dispatch channel, and select the protocol from the forced-HTTP/2 flag:
HTTP/1.1 framer with the configured write strategy and header casing, or the
HTTP/2 driver over transport, receiver and executor. -/
def HandshakeInner.poll {T B : Type} (s : HandshakeInner T B) :
    PResult (Poll (SendRequest B × Either (Dispatcher B T) (H2Client T B)) HError
      × HandshakeInner T B) :=
  match s.transport with
  | none => .panic "polled more than once"
  | some t =>
    match dispatch.channel B with
    | (tx, rx) =>
      let either :=
        if !s.builder.http2 then
          let conn := ProtoConn.new t
          let conn := if !s.builder.h1_writev then conn.set_write_strategy_flatten
            else conn
          let conn := if s.builder.h1_title_case_headers then
            conn.set_title_case_headers else conn
          let cd := ClientDispatch.new B rx
          let d := Dispatcher.new cd conn
          Either.A d
        else
          Either.B (H2Client.new t rx s.builder.exec)
      .ok (.ok (.ready (⟨tx⟩, either)), { s with transport := none })

/-- `Handshake<T, B>`: the public handshake future. -/
structure Handshake (T B : Type) : Type where
  inner : HandshakeInner T B
deriving DecidableEq, Repr

/-- `Builder::handshake(io)`: wrap the cloned configuration and the transport. -/
def Builder.handshake {T : Type} (B : Type) (b : Builder) (t : T) : Handshake T B :=
  ⟨{ builder := b, transport := some t }⟩

/-- `<Handshake as Future>::poll`: poll the inner handshake and wrap the
resulting driver into a `Connection`. -/
def Handshake.poll {T B : Type} (h : Handshake T B) :
    PResult (Poll (SendRequest B × Connection T B) HError × Handshake T B) :=
  match h.inner.poll with
  | .panic m => .panic m
  | .ok (r, innerx) =>
    .ok (Except.map (Async.map (fun p => (p.1, Connection.mk p.2))) r, ⟨innerx⟩)

/-- `WhenReady<B>`: wraps the handle until its channel reports ready. -/
structure WhenReady (B : Type) : Type where
  tx : Option (SendRequest B)
deriving DecidableEq, Repr

/-- `SendRequest::when_ready`. -/
def SendRequest.when_ready {B : Type} (s : SendRequest B) : WhenReady B :=
  ⟨some s⟩

/-- `WhenReady::poll`: take the handle (`expect("polled after complete")` — a
second poll after resolution panics), delegate to `poll_ready`; on ready,
yield the handle back; on not-ready, put it back and report not-ready; an
error propagates through the question-mark operator with the handle taken. -/
def WhenReady.poll {B : Type} (w : WhenReady B) :
    PResult (Poll (SendRequest B) HError × WhenReady B) :=
  match w.tx with
  | none => .panic "polled after complete"
  | some tx =>
    match tx.poll_ready with
    | .error e => .ok (.error e, ⟨none⟩)
    | .ok (.ready ()) => .ok (.ok (.ready tx), ⟨none⟩)
    | .ok .notReady => .ok (.ok .notReady, ⟨some tx⟩)

/-- C1: for every request whose enqueue into the dispatch channel succeeds,
the returned response future resolves to the delivered response on
`Ok(Ok(res))`, to the delivered error on `Ok(Err(err))`, and panics with
"dispatch dropped without returning error" when the driver-side slot is
dropped without a delivery — it never hangs unresolved. -/
theorem send_request_delivery {B : Type} (s : SendRequest B) (req : Request B)
    (rx : Receiver) (h : s.dispatch.send req = Except.ok rx) :
    (∀ r, responseFuturePoll (s.send_request req)
        (SlotState.delivered (Except.ok r))
        = PResult.ok (Except.ok (Async.ready r)))
    ∧ (∀ e, responseFuturePoll (s.send_request req)
        (SlotState.delivered (Except.error e))
        = PResult.ok (Except.error e))
    ∧ responseFuturePoll (s.send_request req) SlotState.dropped
        = PResult.panic "dispatch dropped without returning error" := by
  simp only [SendRequest.send_request, h]
  exact ⟨fun r => rfl, fun e => rfl, rfl⟩

/-- Witness for C1 at a concrete ready channel. -/
theorem send_request_delivery_witness :
    responseFuturePoll
        ((⟨⟨SenderState.ready⟩⟩ : SendRequest Unit).send_request ⟨"x", ()⟩)
        SlotState.dropped
      = PResult.panic "dispatch dropped without returning error" :=
  (send_request_delivery ⟨⟨SenderState.ready⟩⟩ ⟨"x", ()⟩ ⟨⟩ rfl).2.2

/-- C2: submitting a request while the bounded channel cannot accept it
(slot occupied or channel closed) yields, synchronously, a response future
that is already failed with a cancellation error whose message is
"connection was not ready"; polling that future yields the error at once,
whatever the state of any driver-side slot. -/
theorem send_request_not_ready {B : Type} (s : SendRequest B) (req : Request B)
    (h : s.dispatch.state ≠ SenderState.ready) :
    s.send_request req
        = ⟨Either.B (Error.new_canceled (some "connection was not ready"))⟩
    ∧ (Error.new_canceled (some "connection was not ready")).canceled = true
    ∧ (Error.new_canceled (some "connection was not ready")).message
        = some "connection was not ready"
    ∧ ∀ slot, responseFuturePoll (s.send_request req) slot
        = PResult.ok (Except.error
            (Error.new_canceled (some "connection was not ready"))) := by
  have hsend : s.dispatch.send req = Except.error req := by
    cases hst : s.dispatch.state with
    | ready => exact absurd hst h
    | full => simp [DispatchSender.send, hst]
    | closed => simp [DispatchSender.send, hst]
  have hfut : s.send_request req
      = ⟨Either.B (Error.new_canceled (some "connection was not ready"))⟩ := by
    simp only [SendRequest.send_request, hsend]
  exact ⟨hfut, rfl, rfl, fun slot => by rw [hfut]; rfl⟩

/-- Witness for C2 at a concrete saturated (full) channel. -/
theorem send_request_not_ready_witness :
    (⟨⟨SenderState.full⟩⟩ : SendRequest Unit).send_request ⟨"x", ()⟩
      = ⟨Either.B (Error.new_canceled (some "connection was not ready"))⟩ :=
  (send_request_not_ready ⟨⟨SenderState.full⟩⟩ ⟨"x", ()⟩ (by decide)).1

/-- C3: when the enqueue fails, `send_request_retryable` — on the bounded
handle and on the cloneable HTTP/2 handle alike — returns a future that is
already failed with the pair of the cancellation error and `Some` of the
original, unmodified request, and polling it yields exactly that pair. -/
theorem send_request_retryable_not_ready {B : Type} (s : SendRequest B)
    (s2 : Http2SendRequest B) (req req2 : Request B)
    (h : s.dispatch.state ≠ SenderState.ready) (h2 : s2.dispatch.closed = true) :
    (s.send_request_retryable req
        = ⟨Either.B (Error.new_canceled (some "connection was not ready"), some req)⟩)
    ∧ (∀ slot, retryFuturePoll (s.send_request_retryable req) slot
        = PResult.ok (Except.error
            (Error.new_canceled (some "connection was not ready"), some req)))
    ∧ (s2.send_request_retryable req2
        = ⟨Either.B (Error.new_canceled (some "connection was not ready"), some req2)⟩)
    ∧ (∀ slot, retryFuturePoll (s2.send_request_retryable req2) slot
        = PResult.ok (Except.error
            (Error.new_canceled (some "connection was not ready"), some req2))) := by
  have hsend : s.dispatch.try_send req = Except.error req := by
    cases hst : s.dispatch.state with
    | ready => exact absurd hst h
    | full => simp [DispatchSender.try_send, DispatchSender.send, hst]
    | closed => simp [DispatchSender.try_send, DispatchSender.send, hst]
  have hsend2 : s2.dispatch.try_send req2 = Except.error req2 := by
    simp [UnboundedSender.try_send, h2]
  have hfut : s.send_request_retryable req
      = ⟨Either.B (Error.new_canceled (some "connection was not ready"),
          some req)⟩ := by
    simp only [SendRequest.send_request_retryable, hsend]
  have hfut2 : s2.send_request_retryable req2
      = ⟨Either.B (Error.new_canceled (some "connection was not ready"),
          some req2)⟩ := by
    simp only [Http2SendRequest.send_request_retryable, hsend2]
  exact ⟨hfut, fun slot => by rw [hfut]; rfl, hfut2,
    fun slot => by rw [hfut2]; rfl⟩

/-- Witness for C3 at a concrete full bounded channel and a concrete closed
unbounded channel. -/
theorem send_request_retryable_not_ready_witness :
    (⟨⟨SenderState.full⟩⟩ : SendRequest Unit).send_request_retryable ⟨"x", ()⟩
      = ⟨Either.B (Error.new_canceled (some "connection was not ready"),
          some ⟨"x", ()⟩)⟩ :=
  (send_request_retryable_not_ready ⟨⟨SenderState.full⟩⟩ ⟨⟨true⟩⟩
    ⟨"x", ()⟩ ⟨"y", ()⟩ (by decide) rfl).1

/-- C4: polling the handshake selects the protocol exactly from the
forced-HTTP/2 flag: with the flag false it builds the HTTP/1.1 dispatcher
over the transport — write strategy flattened iff `h1_writev` is false,
title-case headers iff that option is set — paired with the dispatch-channel
receiver; with the flag true it builds the HTTP/2 driver over the transport,
the receiver, and the configured executor. -/
theorem handshakeInner_protocol_selection {T B : Type} (b : Builder) (t : T) :
    HandshakeInner.poll (⟨b, some t⟩ : HandshakeInner T B)
      = PResult.ok (Except.ok (Async.ready
          ((⟨(dispatch.channel B).1⟩ : SendRequest B),
           if b.http2 then
             Either.B (H2Client.new t (dispatch.channel B).2 b.exec)
           else
             Either.A (Dispatcher.new
               (ClientDispatch.new B (dispatch.channel B).2)
               { transport := t, readBuf := []
               , writeStrategyFlatten := !b.h1_writev
               , titleCaseHeaders := b.h1_title_case_headers }))),
         (⟨b, none⟩ : HandshakeInner T B)) := by
  rcases b with ⟨e, w, tc, h2⟩
  cases w <;> cases tc <;> cases h2 <;> rfl

/-- C5: decomposing a connection whose driver is the HTTP/1.1 variant
returns exactly the driver's transport and its buffer of bytes read but not
consumed as HTTP; and for a connection freshly produced by the handshake the
returned transport is the very transport handed to the handshake (with an
empty read buffer, nothing having been read yet). -/
theorem into_parts_h1_transport {T B : Type} (h1 : Dispatcher B T) (b : Builder)
    (t : T) (hb : b.http2 = false) :
    Connection.into_parts (⟨Either.A h1⟩ : Connection T B)
        = PResult.ok { transport := h1.conn.transport, read_buf := h1.conn.readBuf }
    ∧ ∀ tx (c : Connection T B) hs,
        Handshake.poll (⟨⟨b, some t⟩⟩ : Handshake T B)
          = PResult.ok (Except.ok (Async.ready (tx, c)), hs) →
        Connection.into_parts c = PResult.ok { transport := t, read_buf := [] } := by
  refine ⟨rfl, ?_⟩
  intro tx c hs h
  rcases b with ⟨e, w, tc, h2c⟩
  simp only [Builder.http2] at hb
  subst hb
  cases w <;> cases tc <;>
    · simp only [Handshake.poll, HandshakeInner.poll, dispatch.channel,
        Bool.not_false, Bool.not_true, if_true, if_false, Except.map, Async.map,
        PResult.ok.injEq, Except.ok.injEq, Async.ready.injEq, Prod.mk.injEq] at h
      obtain ⟨⟨htx, hc⟩, hhs⟩ := h
      subst hc
      rfl

/-- Witness for C5 at a concrete HTTP/1.1 connection and default builder. -/
theorem into_parts_h1_transport_witness :
    Connection.into_parts
        (⟨Either.A (Dispatcher.new (ClientDispatch.new Unit ⟨⟩)
            (ProtoConn.new (37 : Nat)))⟩ : Connection Nat Unit)
      = PResult.ok { transport := 37, read_buf := [] } :=
  (into_parts_h1_transport
    (Dispatcher.new (ClientDispatch.new Unit ⟨⟩) (ProtoConn.new (37 : Nat)))
    Builder.new 37 rfl).1

/-- C6: decomposing a connection whose driver is the HTTP/2 variant always
panics with "http2 cannot into_inner"; it never returns a `Parts` value. -/
theorem into_parts_h2_panics {T B : Type} (h2 : H2Client T B) :
    Connection.into_parts (⟨Either.B h2⟩ : Connection T B)
      = PResult.panic "http2 cannot into_inner" :=
  rfl

/-- C7: the handshake is one-shot — its first poll never reaches the fatal
branch and leaves the transport slot empty, and any later poll finds the
slot empty and panics with "polled more than once" instead of performing a
second handshake. -/
theorem handshake_poll_once {T B : Type} (b : Builder) (t : T) :
    (∃ r, HandshakeInner.poll (⟨b, some t⟩ : HandshakeInner T B)
        = PResult.ok (r, (⟨b, none⟩ : HandshakeInner T B)))
    ∧ HandshakeInner.poll (⟨b, none⟩ : HandshakeInner T B)
        = PResult.panic "polled more than once" := by
  refine ⟨⟨?_, ?_⟩, rfl⟩
  · exact (HandshakeInner.poll (⟨b, some t⟩ : HandshakeInner T B)).rec
      (fun _ => Except.ok Async.notReady) (fun a => a.1)
  · cases hb : b.http2 <;> simp [HandshakeInner.poll, hb, dispatch.channel]

/-- C8: on a connection holding the HTTP/2 driver, `poll_without_shutdown`
and the ordinary `poll` are the same operation: both just poll the HTTP/2
driver and return the same result and successor state. -/
theorem poll_without_shutdown_h2_eq_poll {T B : Type} (c : Connection T B)
    (h2 : H2Client T B) (h : c.inner = Either.B h2) :
    Connection.poll_without_shutdown c = Connection.poll c := by
  rcases c with ⟨inner⟩
  cases inner with
  | A d => exact Either.noConfusion h
  | B hh => rfl

/-- Witness for C8 at a concrete HTTP/2 connection. -/
theorem poll_without_shutdown_h2_eq_poll_witness :
    Connection.poll_without_shutdown
        (⟨Either.B (H2Client.new () ⟨⟩ Exec.Default)⟩ : Connection Unit Unit)
      = Connection.poll
        (⟨Either.B (H2Client.new () ⟨⟩ Exec.Default)⟩ : Connection Unit Unit) :=
  poll_without_shutdown_h2_eq_poll _ (H2Client.new () ⟨⟩ Exec.Default) rfl

/-- C9: each poll of `WhenReady` delegates to the handle's `poll_ready`: on
ready it resolves yielding the handle back, on not-ready it retains the
handle and reports not-ready, on a channel error it propagates the error;
polling after it has resolved panics with "polled after complete". -/
theorem when_ready_poll_delegates {B : Type} (tx : SendRequest B) :
    (tx.poll_ready = Except.ok (Async.ready ()) →
        WhenReady.poll ⟨some tx⟩
          = PResult.ok (Except.ok (Async.ready tx), (⟨none⟩ : WhenReady B)))
    ∧ (tx.poll_ready = Except.ok Async.notReady →
        WhenReady.poll ⟨some tx⟩
          = PResult.ok (Except.ok Async.notReady, (⟨some tx⟩ : WhenReady B)))
    ∧ (∀ e, tx.poll_ready = Except.error e →
        WhenReady.poll ⟨some tx⟩
          = PResult.ok (Except.error e, (⟨none⟩ : WhenReady B)))
    ∧ WhenReady.poll (⟨none⟩ : WhenReady B)
        = PResult.panic "polled after complete" := by
  refine ⟨fun h => ?_, fun h => ?_, fun e h => ?_, rfl⟩ <;>
    simp only [WhenReady.poll, h]

/-- Witness for C9 at a concrete ready handle. -/
theorem when_ready_poll_delegates_witness :
    WhenReady.poll ⟨some (⟨⟨SenderState.ready⟩⟩ : SendRequest Unit)⟩
      = PResult.ok (Except.ok (Async.ready ⟨⟨SenderState.ready⟩⟩),
          (⟨none⟩ : WhenReady Unit)) :=
  (when_ready_poll_delegates ⟨⟨SenderState.ready⟩⟩).1 rfl

/-- C10: the handshake future completes on its very first poll, for every
configuration and transport: it returns Ready with the handle/connection
pair (never NotReady, never an error), and the transport is moved unread and
unwritten into the selected driver. -/
theorem handshake_first_poll_ready {T B : Type} (b : Builder) (t : T) :
    Handshake.poll (Builder.handshake B b t)
      = PResult.ok (Except.ok (Async.ready
          ((⟨⟨SenderState.ready⟩⟩ : SendRequest B),
           (⟨if b.http2 then Either.B (H2Client.new t ⟨⟩ b.exec)
             else Either.A (Dispatcher.new (ClientDispatch.new B ⟨⟩)
               { transport := t, readBuf := []
               , writeStrategyFlatten := !b.h1_writev
               , titleCaseHeaders := b.h1_title_case_headers })⟩ : Connection T B))),
         (⟨⟨b, none⟩⟩ : Handshake T B)) := by
  rcases b with ⟨e, w, tc, h2⟩
  cases w <;> cases tc <;> cases h2 <;> rfl

end HyperConn
